import Mathlib

/-! # Bring-up sequencer of `esp2/main/main.c`

The program has two functions: `delay`, which configures the boot-button pin
and polls it until it no longer reads `1`, and `app_main`, which calls `delay`
and then brings up BLE, UDP and one FreeRTOS task.

Both functions only act through calls into the platform (GPIO driver, logger,
FreeRTOS, the two subsystem drivers).  The embedding records every such call,
in program order, as an `Event`; a run is the list of events it has produced
together with a flag telling whether the function has returned.  What the
platform answers is given by a `World`; constants that come from platform
headers are fields of `Platform`.

The polling loop of `delay` has no bound in the source.  The embedding takes a
number `fuel` of polls that the observer is willing to watch: a run that needs
more polls is reported with the events produced so far and the flag `false`.
-/

namespace BringUp

/-! ## Platform types and constants -/

/-- Interrupt trigger of a pin, the driver's `gpio_int_type_t`. -/
inductive gpio_int_type_t
  | GPIO_INTR_DISABLE
  | GPIO_INTR_POSEDGE
  | GPIO_INTR_NEGEDGE
  | GPIO_INTR_ANYEDGE
  deriving DecidableEq, Repr

/-- Direction of a pin, the driver's `gpio_mode_t`. -/
inductive gpio_mode_t
  | GPIO_MODE_DISABLE
  | GPIO_MODE_INPUT
  | GPIO_MODE_OUTPUT
  | GPIO_MODE_INPUT_OUTPUT
  deriving DecidableEq, Repr

/-- Pull-up setting of a pin, the driver's `gpio_pullup_t`. -/
inductive gpio_pullup_t
  | GPIO_PULLUP_DISABLE
  | GPIO_PULLUP_ENABLE
  deriving DecidableEq, Repr

/-- Pull-down setting of a pin, the driver's `gpio_pulldown_t`. -/
inductive gpio_pulldown_t
  | GPIO_PULLDOWN_DISABLE
  | GPIO_PULLDOWN_ENABLE
  deriving DecidableEq, Repr

/-- The fields of `gpio_config_t` that `delay` assigns (main.c lines 22-26);
`pin_bit_mask` is a `uint64_t`. -/
structure gpio_config_t where
  intr_type : gpio_int_type_t
  mode : gpio_mode_t
  pin_bit_mask : Nat
  pull_down_en : gpio_pulldown_t
  pull_up_en : gpio_pullup_t
  deriving DecidableEq, Repr

/-- Task entry points; `udp_client_task` is the only function whose address
main.c takes. -/
inductive TaskFunction_t
  | udp_client_task
  deriving DecidableEq, Repr

/-- Modelled from the spec: the enumerator `GPIO_NUM_0` is declared in the
GPIO driver header, which is not among the sources; the spec calls it the
designated pin, GPIO 0. -/
def GPIO_NUM_0 : Nat := 0

/-- Line 11: `#define BOOT_BUTTON_PIN GPIO_NUM_0`. -/
def BOOT_BUTTON_PIN : Nat := GPIO_NUM_0

/-- Constants of the platform headers that main.c uses and does not define.
`portTICK_PERIOD_MS` is the length of one scheduler tick in milliseconds. -/
structure Platform where
  ESP_OK : Int
  pdPASS : Int
  portTICK_PERIOD_MS : Nat
  sizeof_StackType_t : Nat
  TAG : String

/-- Answers of the platform during one run: `level n` is what the `n`-th call
(counted from 0) of `gpio_get_level(BOOT_BUTTON_PIN)` returns, the other
fields are the return values of `ble_init()`, `udp_init_()` and
`xTaskCreate(...)`. -/
structure World where
  level : Nat → Int
  ble_result : Int
  udp_result : Int
  task_result : Int

/-! ## Events -/

/-- One call into the platform.  A null pointer argument is `none`. -/
inductive Event
  | gpio_config (io_conf : gpio_config_t)
  | printf (s : String)
  | gpio_get_level (gpio_num : Nat) (level : Int)
  | vTaskDelay (xTicksToDelay : Nat)
  | ble_init
  | udp_init_
  | ESP_LOGI (tag : String) (msg : String)
  | ESP_LOGE (tag : String) (msg : String)
  | xTaskCreate (pvTaskCode : Option TaskFunction_t) (pcName : String)
      (usStackDepth : Nat) (pvParameters : Option Nat) (uxPriority : Nat)
      (pxCreatedTask : Option Nat)
  deriving DecidableEq, Repr

/-- Events that `delay` can produce: pin configuration, `printf`, pin read,
sleep. -/
def Event.isGate : Event → Bool
  | .gpio_config _ => true
  | .printf _ => true
  | .gpio_get_level _ _ => true
  | .vTaskDelay _ => true
  | _ => false

/-- Calls that belong to the bring-up: `ble_init`, `udp_init_`, `xTaskCreate`. -/
def Event.isBringUp : Event → Bool
  | .ble_init => true
  | .udp_init_ => true
  | .xTaskCreate _ _ _ _ _ _ => true
  | _ => false

/-- Calls of `udp_init_`. -/
def Event.isUdpInit : Event → Bool
  | .udp_init_ => true
  | _ => false

/-- Calls of `xTaskCreate`. -/
def Event.isTaskCreate : Event → Bool
  | .xTaskCreate _ _ _ _ _ _ => true
  | _ => false

/-- Error-level log lines (`ESP_LOGE`). -/
def Event.isErrorLog : Event → Bool
  | .ESP_LOGE _ _ => true
  | _ => false

/-- Calls of `gpio_config`. -/
def Event.isGpioConfig : Event → Bool
  | .gpio_config _ => true
  | _ => false

/-- Sleeps (`vTaskDelay`). -/
def Event.isSleep : Event → Bool
  | .vTaskDelay _ => true
  | _ => false

/-- Every log or console line: `printf`, `ESP_LOGI`, `ESP_LOGE`. -/
def Event.isLogLine : Event → Bool
  | .printf _ => true
  | .ESP_LOGI _ _ => true
  | .ESP_LOGE _ _ => true
  | _ => false

/-- Simulated time, in milliseconds, that a run has slept: every
`vTaskDelay(t)` lasts `t` ticks of `portTICK_PERIOD_MS` milliseconds. -/
def elapsedMs (plat : Platform) : List Event → Nat
  | [] => 0
  | .vTaskDelay t :: es => t * plat.portTICK_PERIOD_MS + elapsedMs plat es
  | _ :: es => elapsedMs plat es

/-! ## The program -/

/-- Lines 21-26 of `delay`: the configuration passed to `gpio_config`. -/
def io_conf : gpio_config_t :=
  { intr_type := .GPIO_INTR_DISABLE
    mode := .GPIO_MODE_INPUT
    pin_bit_mask := (1 <<< BOOT_BUTTON_PIN) % 2 ^ 64
    pull_down_en := .GPIO_PULLDOWN_DISABLE
    pull_up_en := .GPIO_PULLUP_ENABLE }

/-- Lines 32-36 of `delay`: the loop
`while (gpio_get_level(BOOT_BUTTON_PIN) == 1) vTaskDelay(100 / portTICK_PERIOD_MS);`
started at the `n`-th read, watched for at most `fuel` reads.  The flag is
`true` when the loop has been left. -/
def delay_loop (plat : Platform) (level : Nat → Int) : Nat → Nat → List Event × Bool
  | 0, _ => ([], false)
  | fuel + 1, n =>
    if level n = 1 then
      let rest := delay_loop plat level fuel (n + 1)
      (Event.gpio_get_level BOOT_BUTTON_PIN (level n)
        :: Event.vTaskDelay (100 / plat.portTICK_PERIOD_MS) :: rest.1, rest.2)
    else
      ([Event.gpio_get_level BOOT_BUTTON_PIN (level n)], true)

/-- Lines 19-40: `static void delay()`. -/
def delay (plat : Platform) (level : Nat → Int) (fuel : Nat) : List Event × Bool :=
  let loop := delay_loop plat level fuel 0
  if loop.2 then
    (Event.gpio_config io_conf
      :: Event.printf "Waiting for boot button press...\n"
      :: (loop.1 ++ [Event.printf "Boot button pressed! Continuing with the program...\n"]),
     true)
  else
    (Event.gpio_config io_conf
      :: Event.printf "Waiting for boot button press...\n"
      :: loop.1,
     false)

/-- Lines 43-81: `void app_main()`. -/
def app_main (plat : Platform) (w : World) (fuel : Nat) : List Event × Bool :=
  let gate := delay plat w.level fuel
  if gate.2 then
    (gate.1
      ++ Event.ble_init
      :: ((if w.ble_result = plat.ESP_OK then
            Event.ESP_LOGI plat.TAG "BLE initialization successful."
            :: Event.udp_init_
            :: (if w.udp_result = plat.ESP_OK then
                  Event.ESP_LOGI plat.TAG "UDP initialization successful."
                  :: Event.xTaskCreate (some TaskFunction_t.udp_client_task) "udp_client_task"
                      (4096 / plat.sizeof_StackType_t) none 5 none
                  :: (if w.task_result ≠ plat.pdPASS then
                        [Event.ESP_LOGE plat.TAG "Failed to create UDP server task."]
                      else
                        [Event.ESP_LOGI plat.TAG "UDP server task started."])
                else
                  [Event.ESP_LOGE plat.TAG "UDP initialization failed."])
          else
            [Event.ESP_LOGE plat.TAG "BLE initialization failed."])
          ++ [Event.ESP_LOGI plat.TAG "I am Here"]),
     true)
  else
    (gate.1, false)

/-! ## Vocabulary of the statements -/

/-- The events of `k` polling cycles in which the pin read `1`: a read
returning `1` followed by one sleep, `k` times. -/
def unpressedCycles (plat : Platform) : Nat → List Event
  | 0 => []
  | k + 1 =>
    Event.gpio_get_level BOOT_BUTTON_PIN 1
      :: Event.vTaskDelay (100 / plat.portTICK_PERIOD_MS) :: unpressedCycles plat k

/-- A platform with a 10 ms tick and one-byte stack words. -/
def plat10 : Platform :=
  { ESP_OK := 0, pdPASS := 1, portTICK_PERIOD_MS := 10, sizeof_StackType_t := 1, TAG := "main" }

/-- A platform with a 40 ms tick (tick rate 25 Hz). -/
def plat40 : Platform :=
  { ESP_OK := 0, pdPASS := 1, portTICK_PERIOD_MS := 40, sizeof_StackType_t := 1, TAG := "main" }

/-- The pin reads `1` three times and `0` from then on. -/
def pressAfter3 : Nat → Int := fun n => if n < 3 then 1 else 0

/-- A world with the button of `pressAfter3` and the given three results. -/
def world3 (ble udp task : Int) : World :=
  { level := pressAfter3, ble_result := ble, udp_result := udp, task_result := task }

/-! ## The polling loop -/

theorem delay_loop_unpressed (plat : Platform) (level : Nat → Int) (f : Nat) :
    ∀ (k n : Nat), (∀ j, j < k → level (n + j) = 1) →
      delay_loop plat level (k + f) n =
        (unpressedCycles plat k ++ (delay_loop plat level f (n + k)).1,
         (delay_loop plat level f (n + k)).2) := by
  intro k
  induction k with
  | zero => intro n _; simp [unpressedCycles]
  | succ k ih =>
    intro n h
    have h0 : level n = 1 := by simpa using h 0 (Nat.succ_pos k)
    have hrest : ∀ j, j < k → level (n + 1 + j) = 1 := by
      intro j hj
      have := h (j + 1) (Nat.succ_lt_succ hj)
      rwa [show n + (j + 1) = n + 1 + j by omega] at this
    have hfuel : k + 1 + f = (k + f) + 1 := by omega
    rw [hfuel, delay_loop, if_pos h0, ih (n + 1) hrest, h0]
    simp [unpressedCycles, show n + 1 + k = n + (k + 1) by omega]

theorem delay_loop_pressed (plat : Platform) (level : Nat → Int) (f n : Nat)
    (h : level n ≠ 1) :
    delay_loop plat level (f + 1) n =
      ([Event.gpio_get_level BOOT_BUTTON_PIN (level n)], true) := by
  rw [delay_loop, if_neg h]

theorem delay_loop_left (plat : Platform) (level : Nat → Int) :
    ∀ (fuel n : Nat), (delay_loop plat level fuel n).2 = true →
      ∃ k, k < fuel ∧ level (n + k) ≠ 1 ∧ ∀ j, j < k → level (n + j) = 1 := by
  intro fuel
  induction fuel with
  | zero => intro n h; simp [delay_loop] at h
  | succ fuel ih =>
    intro n h
    by_cases h1 : level n = 1
    · rw [delay_loop, if_pos h1] at h
      obtain ⟨k, hk, hne, hall⟩ := ih (n + 1) h
      refine ⟨k + 1, Nat.succ_lt_succ hk, ?_, ?_⟩
      · rwa [show n + (k + 1) = n + 1 + k by omega]
      · intro j hj
        cases j with
        | zero => simpa using h1
        | succ j =>
          have := hall j (Nat.lt_of_succ_lt_succ hj)
          rwa [show n + (j + 1) = n + 1 + j by omega]
    · exact ⟨0, Nat.succ_pos fuel, by simpa using h1, by intro j hj; omega⟩

theorem delay_loop_events (plat : Platform) (level : Nat → Int) :
    ∀ (fuel n : Nat) (e : Event), e ∈ (delay_loop plat level fuel n).1 →
      (∃ l, e = Event.gpio_get_level BOOT_BUTTON_PIN l) ∨
        e = Event.vTaskDelay (100 / plat.portTICK_PERIOD_MS) := by
  intro fuel
  induction fuel with
  | zero => intro n e h; simp [delay_loop] at h
  | succ fuel ih =>
    intro n e h
    by_cases h1 : level n = 1
    · rw [delay_loop, if_pos h1] at h
      simp only [List.mem_cons] at h
      rcases h with h | h | h
      · exact Or.inl ⟨_, h⟩
      · exact Or.inr h
      · exact ih (n + 1) e h
    · rw [delay_loop, if_neg h1] at h
      simp only [List.mem_singleton] at h
      exact Or.inl ⟨_, h⟩

/-- Every event of a run of `delay` is a pin configuration, a `printf`, a pin
read or a sleep. -/
theorem delay_isGate (plat : Platform) (level : Nat → Int) (fuel : Nat) (e : Event)
    (h : e ∈ (delay plat level fuel).1) : e.isGate = true := by
  have hl := delay_loop_events plat level fuel 0 e
  cases hb : (delay_loop plat level fuel 0).2 with
  | true =>
    simp only [delay, hb, if_true, List.mem_cons, List.mem_append, List.not_mem_nil,
      or_false] at h
    rcases h with h | h | h | h
    · subst h; rfl
    · subst h; rfl
    · rcases hl h with ⟨l, hl⟩ | hl <;> subst hl <;> rfl
    · subst h; rfl
  | false =>
    simp only [delay, hb, Bool.false_eq_true, if_false, List.mem_cons] at h
    rcases h with h | h | h
    · subst h; rfl
    · subst h; rfl
    · rcases hl h with ⟨l, hl⟩ | hl <;> subst hl <;> rfl

/-- A kind of event that `delay` never produces does not occur in its run. -/
theorem countP_delay_eq_zero (plat : Platform) (level : Nat → Int) (fuel : Nat)
    (p : Event → Bool) (hp : ∀ e, e.isGate = true → p e = false) :
    (delay plat level fuel).1.countP p = 0 := by
  rw [List.countP_eq_zero]
  intro e he
  simp [hp e (delay_isGate plat level fuel e he)]

/-- The run of `delay` when the first `k` reads give `1` and the next one
gives something else, watched for more than `k` reads. -/
theorem delay_first_pressed (plat : Platform) (level : Nat → Int) (k fuel : Nat)
    (hk : level k ≠ 1) (hbefore : ∀ j, j < k → level j = 1) (hfuel : k < fuel) :
    delay plat level fuel =
      (Event.gpio_config io_conf
        :: Event.printf "Waiting for boot button press...\n"
        :: (unpressedCycles plat k
            ++ [Event.gpio_get_level BOOT_BUTTON_PIN (level k),
                Event.printf "Boot button pressed! Continuing with the program...\n"]),
       true) := by
  obtain ⟨f, rfl⟩ : ∃ f, fuel = k + (f + 1) := ⟨fuel - k - 1, by omega⟩
  have h1 := delay_loop_unpressed plat level (f + 1) k 0 (by simpa using hbefore)
  have h2 := delay_loop_pressed plat level f (0 + k) (by simpa using hk)
  rw [h2] at h1
  simp [delay, h1]

/-- The run of `delay` when the first `n` reads all give `1`, watched for `n`
reads: it has not returned. -/
theorem delay_all_unpressed (plat : Platform) (level : Nat → Int) (n : Nat)
    (hall : ∀ j, j < n → level j = 1) :
    delay plat level n =
      (Event.gpio_config io_conf
        :: Event.printf "Waiting for boot button press...\n"
        :: unpressedCycles plat n,
       false) := by
  have h1 := delay_loop_unpressed plat level 0 n 0 (by simpa using hall)
  simp only [Nat.add_zero] at h1
  simp [delay, h1, delay_loop]

/-- When `delay` has returned, some read within the watched ones gave a level
other than `1`, and all reads before it gave `1`. -/
theorem delay_returned (plat : Platform) (level : Nat → Int) (fuel : Nat)
    (h : (delay plat level fuel).2 = true) :
    ∃ k, k < fuel ∧ level k ≠ 1 ∧ ∀ j, j < k → level j = 1 := by
  have hl : (delay_loop plat level fuel 0).2 = true := by
    by_cases hb : (delay_loop plat level fuel 0).2 = true
    · exact hb
    · simp [delay, hb] at h
  simpa using delay_loop_left plat level fuel 0 hl

/-- A kind of event that `delay` never produces is filtered out of its run. -/
theorem filter_delay_eq_nil (plat : Platform) (level : Nat → Int) (fuel : Nat)
    (p : Event → Bool) (hp : ∀ e, e.isGate = true → p e = false) :
    (delay plat level fuel).1.filter p = [] := by
  rw [List.filter_eq_nil_iff]
  intro e he
  simp [hp e (delay_isGate plat level fuel e he)]

/-- Sleeping time of `k` unpressed polling cycles. -/
theorem elapsedMs_unpressedCycles (plat : Platform) (k : Nat) (tl : List Event) :
    elapsedMs plat (unpressedCycles plat k ++ tl) =
      k * (100 / plat.portTICK_PERIOD_MS * plat.portTICK_PERIOD_MS) + elapsedMs plat tl := by
  induction k with
  | zero => simp [unpressedCycles]
  | succ k ih =>
    have hstep : elapsedMs plat (unpressedCycles plat (k + 1) ++ tl) =
        100 / plat.portTICK_PERIOD_MS * plat.portTICK_PERIOD_MS
          + elapsedMs plat (unpressedCycles plat k ++ tl) := rfl
    rw [hstep, ih]
    ring

/-- Number of sleeps in `k` unpressed polling cycles. -/
theorem countP_isSleep_unpressedCycles (plat : Platform) (k : Nat) :
    (unpressedCycles plat k).countP Event.isSleep = k := by
  induction k with
  | zero => simp [unpressedCycles]
  | succ k ih => simp [unpressedCycles, List.countP_cons, Event.isSleep, ih]

/-- What holds of the sleeping time for every tick period: after `k` unpressed
cycles and a press, `delay` has slept `k` times `100 / portTICK_PERIOD_MS`
ticks; that is `100 * k` ms when the tick period divides 100. -/
theorem delay_elapsedMs (plat : Platform) (level : Nat → Int) (k fuel : Nat)
    (hk : level k ≠ 1) (hbefore : ∀ j, j < k → level j = 1) (hfuel : k < fuel) :
    elapsedMs plat (delay plat level fuel).1 =
        k * (100 / plat.portTICK_PERIOD_MS * plat.portTICK_PERIOD_MS)
      ∧ (plat.portTICK_PERIOD_MS ∣ 100 →
          elapsedMs plat (delay plat level fuel).1 = 100 * k) := by
  have h : elapsedMs plat (delay plat level fuel).1 =
      k * (100 / plat.portTICK_PERIOD_MS * plat.portTICK_PERIOD_MS) := by
    rw [delay_first_pressed plat level k fuel hk hbefore hfuel]
    simp [elapsedMs, elapsedMs_unpressedCycles]
  refine ⟨h, fun hdiv => ?_⟩
  rw [h, Nat.div_mul_cancel hdiv, Nat.mul_comm]

/-! ## The bring-up sequence -/

/-- C1: in every run of `app_main` in which the gate is released and
`ble_init` returns a value other than `ESP_OK`, `udp_init_` is called zero
times and `xTaskCreate` is called zero times. -/
theorem ble_failure_skips_udp_and_task (plat : Platform) (w : World) (fuel : Nat)
    (hgate : (delay plat w.level fuel).2 = true) (hble : w.ble_result ≠ plat.ESP_OK) :
    (app_main plat w fuel).1.countP Event.isUdpInit = 0
      ∧ (app_main plat w fuel).1.countP Event.isTaskCreate = 0 := by
  have hu := countP_delay_eq_zero plat w.level fuel Event.isUdpInit
    (by intro e; cases e <;> simp [Event.isGate, Event.isUdpInit])
  have ht := countP_delay_eq_zero plat w.level fuel Event.isTaskCreate
    (by intro e; cases e <;> simp [Event.isGate, Event.isTaskCreate])
  constructor
  · simp [app_main, hgate, hble, hu, List.countP_cons, Event.isUdpInit]
  · simp [app_main, hgate, hble, ht, List.countP_cons, Event.isTaskCreate]

theorem ble_failure_skips_udp_and_task_witness :
    (delay plat10 (world3 (-1) 0 1).level 4).2 = true
      ∧ (world3 (-1) 0 1).ble_result ≠ plat10.ESP_OK
      ∧ (app_main plat10 (world3 (-1) 0 1) 4).1.countP Event.isUdpInit = 0
      ∧ (app_main plat10 (world3 (-1) 0 1) 4).1.countP Event.isTaskCreate = 0 :=
  ⟨by decide, by decide,
    ble_failure_skips_udp_and_task plat10 (world3 (-1) 0 1) 4 (by decide) (by decide)⟩

/-- C2: in every run of `app_main` in which the gate is released and both
`ble_init` and `udp_init_` return `ESP_OK`, the calls of `xTaskCreate` are
exactly one call, with entry point `udp_client_task` (not null), name
"udp_client_task", stack depth `4096 / sizeof(StackType_t)`, a null argument,
priority 5 and a null handle pointer, whatever `xTaskCreate` returns. -/
theorem task_created_once (plat : Platform) (w : World) (fuel : Nat)
    (hgate : (delay plat w.level fuel).2 = true)
    (hble : w.ble_result = plat.ESP_OK) (hudp : w.udp_result = plat.ESP_OK) :
    (app_main plat w fuel).1.filter Event.isTaskCreate =
        [Event.xTaskCreate (some TaskFunction_t.udp_client_task) "udp_client_task"
          (4096 / plat.sizeof_StackType_t) none 5 none]
      ∧ (app_main plat w fuel).1.countP Event.isTaskCreate = 1 := by
  have hf := filter_delay_eq_nil plat w.level fuel Event.isTaskCreate
    (by intro e; cases e <;> simp [Event.isGate, Event.isTaskCreate])
  have ht := countP_delay_eq_zero plat w.level fuel Event.isTaskCreate
    (by intro e; cases e <;> simp [Event.isGate, Event.isTaskCreate])
  constructor
  · by_cases h3 : w.task_result = plat.pdPASS <;>
      simp [app_main, hgate, hble, hudp, h3, hf, List.filter_cons, Event.isTaskCreate]
  · by_cases h3 : w.task_result = plat.pdPASS <;>
      simp [app_main, hgate, hble, hudp, h3, ht, List.countP_cons, Event.isTaskCreate]

theorem task_created_once_witness :
    (delay plat10 (world3 0 0 0).level 4).2 = true
      ∧ (world3 0 0 0).ble_result = plat10.ESP_OK
      ∧ (world3 0 0 0).udp_result = plat10.ESP_OK
      ∧ (world3 0 0 0).task_result ≠ plat10.pdPASS
      ∧ (app_main plat10 (world3 0 0 0) 4).1.filter Event.isTaskCreate =
          [Event.xTaskCreate (some TaskFunction_t.udp_client_task) "udp_client_task"
            (4096 / plat10.sizeof_StackType_t) none 5 none]
      ∧ (app_main plat10 (world3 0 0 0) 4).1.countP Event.isTaskCreate = 1 :=
  ⟨by decide, by decide, by decide, by decide,
    task_created_once plat10 (world3 0 0 0) 4 (by decide) (by decide) (by decide)⟩

/-- C3: in every run of `app_main` in which the gate is released, `ble_init`
returns `ESP_OK` and `udp_init_` returns a value other than `ESP_OK`,
`xTaskCreate` is never called and `udp_init_` was called exactly once. -/
theorem udp_failure_skips_task (plat : Platform) (w : World) (fuel : Nat)
    (hgate : (delay plat w.level fuel).2 = true)
    (hble : w.ble_result = plat.ESP_OK) (hudp : w.udp_result ≠ plat.ESP_OK) :
    (app_main plat w fuel).1.countP Event.isTaskCreate = 0
      ∧ (app_main plat w fuel).1.countP Event.isUdpInit = 1 := by
  have hu := countP_delay_eq_zero plat w.level fuel Event.isUdpInit
    (by intro e; cases e <;> simp [Event.isGate, Event.isUdpInit])
  have ht := countP_delay_eq_zero plat w.level fuel Event.isTaskCreate
    (by intro e; cases e <;> simp [Event.isGate, Event.isTaskCreate])
  constructor
  · simp [app_main, hgate, hble, hudp, ht, List.countP_cons, Event.isTaskCreate]
  · simp [app_main, hgate, hble, hudp, hu, List.countP_cons, Event.isUdpInit]

theorem udp_failure_skips_task_witness :
    (delay plat10 (world3 0 (-1) 1).level 4).2 = true
      ∧ (world3 0 (-1) 1).ble_result = plat10.ESP_OK
      ∧ (world3 0 (-1) 1).udp_result ≠ plat10.ESP_OK
      ∧ (app_main plat10 (world3 0 (-1) 1) 4).1.countP Event.isTaskCreate = 0
      ∧ (app_main plat10 (world3 0 (-1) 1) 4).1.countP Event.isUdpInit = 1 :=
  ⟨by decide, by decide, by decide,
    udp_failure_skips_task plat10 (world3 0 (-1) 1) 4 (by decide) (by decide) (by decide)⟩

/-- C5: for all results of `ble_init`, `udp_init_` and `xTaskCreate`, once
the gate is released `app_main` runs to its end, the closing line
`ESP_LOGI(TAG, "I am Here")` occurs exactly once in the run and is its last
event. -/
theorem closing_line_always (plat : Platform) (w : World) (fuel : Nat)
    (hgate : (delay plat w.level fuel).2 = true) :
    (app_main plat w fuel).2 = true
      ∧ (app_main plat w fuel).1.count (Event.ESP_LOGI plat.TAG "I am Here") = 1
      ∧ (app_main plat w fuel).1.getLast? = some (Event.ESP_LOGI plat.TAG "I am Here") := by
  have hc := countP_delay_eq_zero plat w.level fuel
    (fun e => e == Event.ESP_LOGI plat.TAG "I am Here")
    (by intro e; cases e <;> simp [Event.isGate])
  refine ⟨by simp [app_main, hgate], ?_, ?_⟩
  · rw [List.count_eq_countP]
    by_cases h1 : w.ble_result = plat.ESP_OK <;>
      by_cases h2 : w.udp_result = plat.ESP_OK <;>
        by_cases h3 : w.task_result = plat.pdPASS <;>
          simp [app_main, hgate, h1, h2, h3, hc, List.countP_cons]
  · by_cases h1 : w.ble_result = plat.ESP_OK <;>
      by_cases h2 : w.udp_result = plat.ESP_OK <;>
        by_cases h3 : w.task_result = plat.pdPASS <;>
          simp [app_main, hgate, h1, h2, h3]

theorem closing_line_always_witness :
    (delay plat10 (world3 (-1) (-1) 0).level 4).2 = true
      ∧ (app_main plat10 (world3 (-1) (-1) 0) 4).2 = true
      ∧ (app_main plat10 (world3 (-1) (-1) 0) 4).1.count
          (Event.ESP_LOGI plat10.TAG "I am Here") = 1
      ∧ (app_main plat10 (world3 (-1) (-1) 0) 4).1.getLast?
          = some (Event.ESP_LOGI plat10.TAG "I am Here") :=
  ⟨by decide, closing_line_always plat10 (world3 (-1) (-1) 0) 4 (by decide)⟩

/-- C7: in a run of `app_main` in which the gate is released, the number of
error-level log lines is 0 when `ble_init` and `udp_init_` return `ESP_OK` and
`xTaskCreate` returns `pdPASS`, and 1 otherwise; when `ble_init` fails, the
events after the gate are exactly the `ble_init` call, the error line
"BLE initialization failed." and the closing line.  A run still blocked at
the gate has no error line. -/
theorem error_line_count (plat : Platform) (w : World) (fuel : Nat) :
    ((delay plat w.level fuel).2 = true →
        (app_main plat w fuel).1.countP Event.isErrorLog =
            (if w.ble_result = plat.ESP_OK ∧ w.udp_result = plat.ESP_OK
                ∧ w.task_result = plat.pdPASS then 0 else 1)
          ∧ (w.ble_result ≠ plat.ESP_OK →
              (app_main plat w fuel).1 =
                (delay plat w.level fuel).1
                  ++ [Event.ble_init,
                      Event.ESP_LOGE plat.TAG "BLE initialization failed.",
                      Event.ESP_LOGI plat.TAG "I am Here"]))
      ∧ ((delay plat w.level fuel).2 = false →
          (app_main plat w fuel).1.countP Event.isErrorLog = 0) := by
  have hc := countP_delay_eq_zero plat w.level fuel Event.isErrorLog
    (by intro e; cases e <;> simp [Event.isGate, Event.isErrorLog])
  refine ⟨fun hgate => ⟨?_, fun hble => ?_⟩, fun hgate => ?_⟩
  · by_cases h1 : w.ble_result = plat.ESP_OK <;>
      by_cases h2 : w.udp_result = plat.ESP_OK <;>
        by_cases h3 : w.task_result = plat.pdPASS <;>
          simp [app_main, hgate, h1, h2, h3, hc, List.countP_cons, Event.isErrorLog]
  · simp [app_main, hgate, hble]
  · simp [app_main, hgate, hc]

theorem error_line_count_witness :
    (delay plat10 (world3 0 0 0).level 4).2 = true
      ∧ (app_main plat10 (world3 0 0 0) 4).1.countP Event.isErrorLog = 1
      ∧ (delay plat10 (world3 (-1) 0 1).level 4).2 = true
      ∧ (app_main plat10 (world3 (-1) 0 1) 4).1 =
          (delay plat10 (world3 (-1) 0 1).level 4).1
            ++ [Event.ble_init,
                Event.ESP_LOGE plat10.TAG "BLE initialization failed.",
                Event.ESP_LOGI plat10.TAG "I am Here"]
      ∧ (delay plat10 (world3 (-1) 0 1).level 3).2 = false
      ∧ (app_main plat10 (world3 (-1) 0 1) 3).1.countP Event.isErrorLog = 0 :=
  ⟨by decide,
    ((error_line_count plat10 (world3 0 0 0) 4).1 (by decide)).1,
    by decide,
    ((error_line_count plat10 (world3 (-1) 0 1) 4).1 (by decide)).2 (by decide),
    by decide,
    (error_line_count plat10 (world3 (-1) 0 1) 3).2 (by decide)⟩

/-- C8: when `ble_init` and `udp_init_` return `ESP_OK` and `xTaskCreate`
returns `pdPASS`, the events of `app_main` after the gate are, in this order
and with nothing else: the `ble_init` call, the info line
"BLE initialization successful.", the `udp_init_` call, the info line
"UDP initialization successful.", one `xTaskCreate` call, the info line
"UDP server task started." and the closing info line "I am Here". -/
theorem all_succeed_trace (plat : Platform) (w : World) (fuel : Nat)
    (hgate : (delay plat w.level fuel).2 = true)
    (hble : w.ble_result = plat.ESP_OK) (hudp : w.udp_result = plat.ESP_OK)
    (htask : w.task_result = plat.pdPASS) :
    app_main plat w fuel =
      ((delay plat w.level fuel).1
        ++ [Event.ble_init,
            Event.ESP_LOGI plat.TAG "BLE initialization successful.",
            Event.udp_init_,
            Event.ESP_LOGI plat.TAG "UDP initialization successful.",
            Event.xTaskCreate (some TaskFunction_t.udp_client_task) "udp_client_task"
              (4096 / plat.sizeof_StackType_t) none 5 none,
            Event.ESP_LOGI plat.TAG "UDP server task started.",
            Event.ESP_LOGI plat.TAG "I am Here"],
       true) := by
  simp [app_main, hgate, hble, hudp, htask]

theorem all_succeed_trace_witness :
    (delay plat10 (world3 0 0 1).level 4).2 = true
      ∧ (world3 0 0 1).ble_result = plat10.ESP_OK
      ∧ (world3 0 0 1).udp_result = plat10.ESP_OK
      ∧ (world3 0 0 1).task_result = plat10.pdPASS
      ∧ app_main plat10 (world3 0 0 1) 4 =
          ((delay plat10 (world3 0 0 1).level 4).1
            ++ [Event.ble_init,
                Event.ESP_LOGI plat10.TAG "BLE initialization successful.",
                Event.udp_init_,
                Event.ESP_LOGI plat10.TAG "UDP initialization successful.",
                Event.xTaskCreate (some TaskFunction_t.udp_client_task) "udp_client_task"
                  (4096 / plat10.sizeof_StackType_t) none 5 none,
                Event.ESP_LOGI plat10.TAG "UDP server task started.",
                Event.ESP_LOGI plat10.TAG "I am Here"],
           true) :=
  ⟨by decide, by decide, by decide, by decide,
    all_succeed_trace plat10 (world3 0 0 1) 4 (by decide) (by decide) (by decide) (by decide)⟩

/-! ## The gate -/

/-- The levels of `pressAfter3` are pin levels. -/
theorem pressAfter3_levels : ∀ i, pressAfter3 i = 0 ∨ pressAfter3 i = 1 := by
  intro i
  unfold pressAfter3
  by_cases h : i < 3
  · right; simp [h]
  · left; simp [h]

/-- C4: for every sequence of sampled pin levels (each 0 or 1), `delay`
returns (for some number of watched polls) if and only if some sample is 0,
the "pressed" level; it returns at the first such sample: if sample `k` is 0
and all earlier ones are 1, the run watched for more than `k` polls is the
configuration, the waiting message, `k` unpressed cycles, the read of 0 and
the final message; and if the first `n` samples are all 1, the run has not
returned after `n` polls, and no run returns within `n` polls. -/
theorem delay_returns_iff_pressed (plat : Platform) (level : Nat → Int)
    (hv : ∀ i, level i = 0 ∨ level i = 1) :
    ((∃ fuel, (delay plat level fuel).2 = true) ↔ ∃ i, level i = 0)
      ∧ (∀ k, level k = 0 → (∀ j, j < k → level j = 1) → ∀ fuel, k < fuel →
          delay plat level fuel =
            (Event.gpio_config io_conf
              :: Event.printf "Waiting for boot button press...\n"
              :: (unpressedCycles plat k
                  ++ [Event.gpio_get_level BOOT_BUTTON_PIN 0,
                      Event.printf "Boot button pressed! Continuing with the program...\n"]),
             true))
      ∧ (∀ n, (∀ j, j < n → level j = 1) →
          delay plat level n =
              (Event.gpio_config io_conf
                :: Event.printf "Waiting for boot button press...\n"
                :: unpressedCycles plat n,
               false)
            ∧ ∀ fuel, (delay plat level fuel).2 = true → n < fuel) := by
  refine ⟨⟨?_, ?_⟩, ?_, ?_⟩
  · rintro ⟨fuel, h⟩
    obtain ⟨k, _, hne, _⟩ := delay_returned plat level fuel h
    exact ⟨k, (hv k).resolve_right hne⟩
  · intro h
    have hfirst : ∀ j, j < Nat.find h → level j = 1 := fun j hj =>
      (hv j).resolve_left (Nat.find_min h hj)
    have hk : level (Nat.find h) ≠ 1 := by
      rw [Nat.find_spec h]; decide
    refine ⟨Nat.find h + 1, ?_⟩
    rw [delay_first_pressed plat level (Nat.find h) (Nat.find h + 1) hk hfirst
      (Nat.lt_succ_self _)]
  · intro k hk hbefore fuel hfuel
    have hne : level k ≠ 1 := by rw [hk]; decide
    rw [delay_first_pressed plat level k fuel hne hbefore hfuel, hk]
  · intro n hall
    refine ⟨delay_all_unpressed plat level n hall, fun fuel h => ?_⟩
    obtain ⟨k, hk, hne, _⟩ := delay_returned plat level fuel h
    by_contra hlt
    exact hne (hall k (by omega))

theorem delay_returns_iff_pressed_witness :
    (∀ i, pressAfter3 i = 0 ∨ pressAfter3 i = 1)
      ∧ ((∃ fuel, (delay plat10 pressAfter3 fuel).2 = true) ↔ ∃ i, pressAfter3 i = 0)
      ∧ (delay plat10 pressAfter3 3).2 = false
      ∧ (delay plat10 pressAfter3 4).2 = true :=
  ⟨pressAfter3_levels,
    (delay_returns_iff_pressed plat10 pressAfter3 pressAfter3_levels).1,
    by decide, by decide⟩

/-- C9: the gate precedes all bring-up.  In every run of `app_main` over pin
levels (each 0 or 1), a call of `ble_init`, `udp_init_` or `xTaskCreate` only
occurs after a read of the boot-button pin that returned 0 ("pressed"); and
if all samples watched so far are 1, the run so far is exactly the pin
configuration, the "Waiting for boot button press..." message, and one read
and one sleep per sample. -/
theorem gate_precedes_bring_up (plat : Platform) (w : World) (fuel : Nat)
    (hv : ∀ i, w.level i = 0 ∨ w.level i = 1) :
    (∀ pre e post, (app_main plat w fuel).1 = pre ++ e :: post → e.isBringUp = true →
        Event.gpio_get_level BOOT_BUTTON_PIN 0 ∈ pre)
      ∧ ((∀ i, i < fuel → w.level i = 1) →
          app_main plat w fuel =
            (Event.gpio_config io_conf
              :: Event.printf "Waiting for boot button press...\n"
              :: unpressedCycles plat fuel,
             false)) := by
  constructor
  · intro pre e post heq hb
    have hnot : e ∉ (delay plat w.level fuel).1 := by
      intro hmem
      have hg := delay_isGate plat w.level fuel e hmem
      cases e <;> simp [Event.isGate, Event.isBringUp] at hg hb
    cases hgate : (delay plat w.level fuel).2 with
    | false =>
      have htr : (app_main plat w fuel).1 = (delay plat w.level fuel).1 := by
        simp [app_main, hgate]
      exact absurd (by rw [← htr, heq]; simp) hnot
    | true =>
      obtain ⟨k, hk, hne, hbefore⟩ := delay_returned plat w.level fuel hgate
      have hread : Event.gpio_get_level BOOT_BUTTON_PIN 0 ∈ (delay plat w.level fuel).1 := by
        rw [delay_first_pressed plat w.level k fuel hne hbefore hk,
          (hv k).resolve_right hne]
        simp
      obtain ⟨body, hbody⟩ : ∃ body, (app_main plat w fuel).1 =
          (delay plat w.level fuel).1 ++ body := by
        simp [app_main, hgate]
      rw [hbody] at heq
      rcases List.append_eq_append_iff.mp heq with ⟨a, ha, _⟩ | ⟨c, hc, hc2⟩
      · rw [ha]; exact List.mem_append_left _ hread
      · cases c with
        | nil =>
          have hpre : pre = (delay plat w.level fuel).1 := by simpa using hc.symm
          rw [hpre]; exact hread
        | cons x c =>
          have hx : x = e := by
            have := hc2
            simp only [List.cons_append, List.cons.injEq] at this
            exact this.1.symm
          exact absurd (by rw [hc, hx]; simp) hnot
  · intro hall
    have hd := delay_all_unpressed plat w.level fuel hall
    simp [app_main, hd]

theorem gate_precedes_bring_up_witness :
    (∀ i, (world3 0 0 1).level i = 0 ∨ (world3 0 0 1).level i = 1)
      ∧ (∀ pre e post, (app_main plat10 (world3 0 0 1) 4).1 = pre ++ e :: post →
          e.isBringUp = true → Event.gpio_get_level BOOT_BUTTON_PIN 0 ∈ pre)
      ∧ (∀ i, i < 3 → (world3 0 0 1).level i = 1)
      ∧ app_main plat10 (world3 0 0 1) 3 =
          (Event.gpio_config io_conf
            :: Event.printf "Waiting for boot button press...\n"
            :: unpressedCycles plat10 3,
           false) :=
  ⟨pressAfter3_levels,
    (gate_precedes_bring_up plat10 (world3 0 0 1) 4 pressAfter3_levels).1,
    by decide,
    (gate_precedes_bring_up plat10 (world3 0 0 1) 3 pressAfter3_levels).2 (by decide)⟩

/-- C10: `delay` calls `gpio_config` exactly once, as the first event of its
run (so before every level read), with mode input, pull-up enabled, pull-down
disabled, interrupts disabled and pin bit mask `1 << BOOT_BUTTON_PIN`, which
is 1 (only GPIO 0); every level read of the run is of `BOOT_BUTTON_PIN`. -/
theorem delay_configures_pin (plat : Platform) (level : Nat → Int) (fuel : Nat) :
    (delay plat level fuel).1.head? =
        some (Event.gpio_config
          { intr_type := gpio_int_type_t.GPIO_INTR_DISABLE
            mode := gpio_mode_t.GPIO_MODE_INPUT
            pin_bit_mask := 1
            pull_down_en := gpio_pulldown_t.GPIO_PULLDOWN_DISABLE
            pull_up_en := gpio_pullup_t.GPIO_PULLUP_ENABLE })
      ∧ io_conf.pin_bit_mask = 1 <<< BOOT_BUTTON_PIN
      ∧ BOOT_BUTTON_PIN = 0
      ∧ (delay plat level fuel).1.countP Event.isGpioConfig = 1
      ∧ (∀ p l, Event.gpio_get_level p l ∈ (delay plat level fuel).1 → p = BOOT_BUTTON_PIN) := by
  have hloop : ∀ e, e ∈ (delay_loop plat level fuel 0).1 → e.isGpioConfig = false := by
    intro e he
    rcases delay_loop_events plat level fuel 0 e he with ⟨l, rfl⟩ | rfl <;> rfl
  have hcount : (delay_loop plat level fuel 0).1.countP Event.isGpioConfig = 0 := by
    rw [List.countP_eq_zero]
    intro e he
    simp [hloop e he]
  refine ⟨?_, by decide, rfl, ?_, ?_⟩
  · cases hb : (delay_loop plat level fuel 0).2 <;> simp [delay, hb] <;> decide
  · cases hb : (delay_loop plat level fuel 0).2 <;>
      simp [delay, hb, List.countP_cons, Event.isGpioConfig, hcount]
  · intro p l hmem
    have hin : Event.gpio_get_level p l ∈ (delay_loop plat level fuel 0).1 := by
      cases hb : (delay_loop plat level fuel 0).2 <;> simpa [delay, hb] using hmem
    rcases delay_loop_events plat level fuel 0 _ hin with ⟨l2, h⟩ | h
    · simp only [Event.gpio_get_level.injEq] at h
      exact h.1
    · cases h

/-- C6: with a tick period of 40 ms (tick rate 25 Hz) and a pin that reads 1
three times and then 0, `delay` performs exactly three sleeps between its two
messages and no other log line, but each sleep is `100 / 40 = 2` ticks, that
is 80 ms and not 100 ms: the run has slept 240 ms, less than 300 ms. -/
theorem delay_sleep_at_40ms_tick :
    delay plat40 pressAfter3 4 =
        ([Event.gpio_config io_conf,
          Event.printf "Waiting for boot button press...\n",
          Event.gpio_get_level BOOT_BUTTON_PIN 1, Event.vTaskDelay 2,
          Event.gpio_get_level BOOT_BUTTON_PIN 1, Event.vTaskDelay 2,
          Event.gpio_get_level BOOT_BUTTON_PIN 1, Event.vTaskDelay 2,
          Event.gpio_get_level BOOT_BUTTON_PIN 0,
          Event.printf "Boot button pressed! Continuing with the program...\n"],
         true)
      ∧ (delay plat40 pressAfter3 4).1.countP Event.isSleep = 3
      ∧ (delay plat40 pressAfter3 4).1.countP Event.isLogLine = 2
      ∧ 100 / plat40.portTICK_PERIOD_MS * plat40.portTICK_PERIOD_MS = 80
      ∧ elapsedMs plat40 (delay plat40 pressAfter3 4).1 = 240
      ∧ elapsedMs plat40 (delay plat40 pressAfter3 4).1 < 300 := by
  decide

end BringUp
